import Mathlib

/-!
Shallow embedding of the Collection API client
(`PyFunceble/query/collection.py`, class `CollectionQueryTool`).

The network is modelled as an oracle `net : HttpRequest → HttpResult`
describing how the remote service answers each outbound request.  Every
operation returns, besides its Python-level result, the list of HTTP
requests it issued (its trace), so that call counts and call order can be
stated.  Python exceptions that the code can raise (`TypeError`,
`ValueError`) are modelled by the `PyResult` type; exceptions the code
catches (`requests.RequestException`, `json.decoder.JSONDecodeError`) are
modelled by the `HttpResult` oracle outcomes.
-/

namespace Collection

/-- Minimal JSON value, standing for Python dict/JSON payloads. -/
inductive Json : Type
  | null : Json
  | str (s : String) : Json
  | num (n : Int) : Json
  | obj (fields : List (String × Json)) : Json

/-- HTTP method of an outbound request. -/
inductive Method : Type
  | get : Method
  | post : Method
deriving DecidableEq

/-- Body of an outbound request: `requests.post(json=...)` carries a JSON
payload, `requests.post(data=...)` carries a raw payload. -/
inductive ReqBody : Type
  | jsonPayload (j : Json) : ReqBody
  | rawPayload (s : String) : ReqBody

/-- One outbound HTTP request as issued by the client. -/
structure HttpRequest where
  method : Method
  url : String
  body : Option ReqBody
  timeout : Rat

/-- Outcome of one outbound HTTP request, as seen by the client.
`exc` is a transport failure (`requests.RequestException`); `resp` is a
completed response with its status code and, when the body parses as
JSON, the parsed body (`none` means `response.json()` raises
`json.decoder.JSONDecodeError`). -/
inductive HttpResult : Type
  | exc : HttpResult
  | resp (status : Nat) (body : Option Json) : HttpResult

/-- Result of a Python-level call: a normal return, or one of the two
classified exceptions the client raises. -/
inductive PyResult (α : Type) : Type
  | ret (x : α) : PyResult α
  | typeError : PyResult α
  | valueError : PyResult α

/-- A Python value that either is a `str` or is not (any other type). -/
inductive Subject : Type
  | str (s : String) : Subject
  | nonStr : Subject

/-- Mutable state of one `CollectionQueryTool` instance: the resolved
configuration knobs and the `_is_modern_api` tri-state cache
(`none` = UNKNOWN, `some false` = LEGACY, `some true` = MODERN). -/
structure ClientState where
  token : String
  url_base : String
  timeout : Rat
  is_modern_api : Option Bool

/-- Truthiness of the `Optional[bool]` attribute `_is_modern_api`:
`None` and `False` are falsy, `True` is truthy. -/
def pyTruthy : Option Bool → Bool
  | some b => b
  | none => false

/-- Python `value.startswith(p)`, on the underlying character lists. -/
def leadsWith : List Char → List Char → Bool
  | [], _ => true
  | _ :: _, [] => false
  | p :: ps, c :: cs => p == c && leadsWith ps cs

/-- Python `s.startswith(p)` for strings. -/
def pyStartswith (s p : String) : Bool := leadsWith p.data s.data

/-- Python `s.rstrip("/")`: remove every trailing `'/'` character. -/
def rstripSlash (s : String) : String :=
  ⟨(s.data.reverse.dropWhile (fun ch => ch = '/')).reverse⟩

/-- The `url_base` property setter: a non-`str` value raises `TypeError`;
a string not starting with `"http"`/`"https"` raises `ValueError`;
otherwise the stored value is the input right-stripped of `'/'`. -/
def url_base_setter (value : Subject) : PyResult String :=
  match value with
  | .nonStr => .typeError
  | .str s =>
    if !(pyStartswith s "http" || pyStartswith s "https") then .valueError
    else .ret (rstripSlash s)

/-- Constructor (`__init__`) with already-resolved token, URL base and
timeout; the URL base goes through the `url_base` setter, and the
`_is_modern_api` cache starts at `None` (class attribute default). -/
def mkClient (token url_base : String) (timeout : Rat) : PyResult ClientState :=
  match url_base_setter (.str url_base) with
  | .ret u => .ret { token := token, url_base := u, timeout := timeout, is_modern_api := none }
  | .typeError => .typeError
  | .valueError => .valueError

/-- The probe request of `guess_and_set_is_modern_api`:
`GET {url_base}/v1/stats/subject` with the configured timeout. -/
def probeRequest (c : ClientState) : HttpRequest :=
  { method := .get, url := c.url_base ++ "/v1/stats/subject", body := none,
    timeout := c.timeout }

/-- Whether `response.raise_for_status()` raises `requests.HTTPError`:
it does exactly for 4xx and 5xx status codes. -/
def isHttpError (status : Nat) : Bool := decide (400 ≤ status ∧ status < 600)

/-- Embedding of `guess_and_set_is_modern_api`: with a truthy (non-empty)
token, issue the probe GET; `raise_for_status` success sets the cache to
`False` (legacy), any caught exception sets it to `True` (modern).  With
no token the cache is set to `False` with no network call. -/
def guess_and_set_is_modern_api (c : ClientState) (net : HttpRequest → HttpResult) :
    ClientState × List HttpRequest :=
  if c.token ≠ "" then
    let req := probeRequest c
    match net req with
    | .exc => ({ c with is_modern_api := some true }, [req])
    | .resp status _ =>
      if isHttpError status then ({ c with is_modern_api := some true }, [req])
      else ({ c with is_modern_api := some false }, [req])
  else
    ({ c with is_modern_api := some false }, [])

/-- Embedding of the `ensure_is_modern_api_is_set` decorator: run the
probe only when the cache is still `None`. -/
def ensure_is_modern_api_is_set (c : ClientState) (net : HttpRequest → HttpResult) :
    ClientState × List HttpRequest :=
  match c.is_modern_api with
  | none => guess_and_set_is_modern_api c net
  | some _ => (c, [])

/-- URL selected by `pull`: modern + token → aggregation search; modern
without token → hub aggregation search; otherwise legacy subject search. -/
def pull_url (c : ClientState) : String :=
  if pyTruthy c.is_modern_api then
    if c.token ≠ "" then c.url_base ++ "/v1/aggregation/subject/search"
    else c.url_base ++ "/v1/hub/aggregation/subject/search"
  else
    c.url_base ++ "/v1/subject/search"

/-- The POST request issued by `pull`, with JSON body `{"subject": s}`. -/
def searchRequest (c : ClientState) (s : String) : HttpRequest :=
  { method := .post, url := pull_url c,
    body := some (.jsonPayload (.obj [("subject", .str s)])),
    timeout := c.timeout }

/-- Shared response handling of `pull`, `__push_status` and
`__push_whois`: parse `response.json()` (a parse failure is caught), then
return the parsed body iff the status code is exactly 200; every other
case yields `None`. -/
def softResponse : HttpResult → Option Json
  | .exc => none
  | .resp status body =>
    match body with
    | none => none
    | some j => if status = 200 then some j else none

/-- Result of one public call: the client state afterwards, the trace of
issued requests, and the Python-level result. -/
structure CallResult (α : Type) where
  state : ClientState
  trace : List HttpRequest
  result : PyResult α

/-- Embedding of `pull`: ensure the generation cache is set, raise
`TypeError` on a non-`str` subject, then POST the search request and
apply the soft-failure response policy. -/
def pull (c : ClientState) (net : HttpRequest → HttpResult) (subject : Subject) :
    CallResult (Option Json) :=
  let e := ensure_is_modern_api_is_set c net
  match subject with
  | .nonStr => ⟨e.1, e.2, .typeError⟩
  | .str s =>
    let req := searchRequest e.1 s
    ⟨e.1, e.2 ++ [req], .ret (softResponse (net req))⟩

/-- Embedding of `__contains__`: `value in tool` is
`self.pull(value) is not None`. -/
def contains (c : ClientState) (net : HttpRequest → HttpResult) (value : Subject) :
    CallResult Bool :=
  match pull c net value with
  | ⟨c1, tr, .ret x⟩ => ⟨c1, tr, .ret x.isSome⟩
  | ⟨c1, tr, .typeError⟩ => ⟨c1, tr, .typeError⟩
  | ⟨c1, tr, .valueError⟩ => ⟨c1, tr, .valueError⟩

/-- Embedding of `__getitem__`: `tool[value]` is `self.pull(value)`. -/
def getitem (c : ClientState) (net : HttpRequest → HttpResult) (value : Subject) :
    CallResult (Option Json) :=
  pull c net value

/-- The class attribute `SUPPORTED_CHECKERS`. -/
def SUPPORTED_CHECKERS : List String := ["syntax", "reputation", "availability"]

/-- A value handed to the submission helpers: a Python `dict`, an instance
of one of the three checker-status classes (carrying its `to_dict()`
serialization), or any other value (posted raw by `__push_status`). -/
inductive PushData : Type
  | dict (j : Json) : PushData
  | statusObj (to_dict : Json) : PushData
  | raw (s : String) : PushData

/-- Request body chosen by `__push_status` from the runtime type of its
`data` argument: a dict is posted as `json=data`, a status object as
`json=data.to_dict()`, anything else as `data=data`. -/
def statusRequestBody : PushData → ReqBody
  | .dict j => .jsonPayload j
  | .statusObj j => .jsonPayload j
  | .raw s => .rawPayload s

/-- Modelled from the spec: the checker-status record passed to `push`.
The three status classes (`AvailabilityCheckerStatus`,
`SyntaxCheckerStatus`, `ReputationCheckerStatus`) are not part of this
source; per the spec they are opaque records exposing a `subject`, a
`checker_type` tag, an optional truthy/absent `expiration_date`, and the
serializations used by the client (`to_dict()` and `to_json()`). -/
structure CheckerStatus where
  subject : Subject
  checker_type : Subject
  has_expiration_date : Bool
  expiration_date_truthy : Bool
  to_dict : Json
  to_json : PushData

/-- Argument of `push`: an instance of one of the three recognized
checker-status classes, or a value of any other type. -/
inductive PushArg : Type
  | status (cs : CheckerStatus) : PushArg
  | wrongType : PushArg

/-- Embedding of `__push_status`: no token → `None` with no network call;
unsupported checker type → `ValueError`; otherwise POST the payload to
the generation- and token-dependent status endpoint and apply the
soft-failure response policy. -/
def push_status (c : ClientState) (net : HttpRequest → HttpResult)
    (checker_type : String) (data : PushData) :
    List HttpRequest × PyResult (Option Json) :=
  if c.token = "" then ([], .ret none)
  else if checker_type ∉ SUPPORTED_CHECKERS then ([], .valueError)
  else
    let url :=
      if pyTruthy c.is_modern_api then
        if c.token = "" then c.url_base ++ "/v1/hub/status/" ++ checker_type
        else c.url_base ++ "/v1/contracts/self-delivery"
      else c.url_base ++ "/v1/status/" ++ checker_type
    let req : HttpRequest :=
      { method := .post, url := url, body := some (statusRequestBody data),
        timeout := c.timeout }
    ([req], .ret (softResponse (net req)))

/-- Embedding of `__push_whois`: no token → `None` with no network call;
a status object is first serialized with `to_dict()`; a non-dict value
raises `TypeError`; otherwise POST to the fixed `/v1/status/whois`
endpoint with the soft-failure response policy. -/
def push_whois (c : ClientState) (net : HttpRequest → HttpResult) (data : PushData) :
    List HttpRequest × PyResult (Option Json) :=
  if c.token = "" then ([], .ret none)
  else
    match data with
    | .raw _ => ([], .typeError)
    | .statusObj j | .dict j =>
      let req : HttpRequest :=
        { method := .post, url := c.url_base ++ "/v1/status/whois",
          body := some (.jsonPayload j), timeout := c.timeout }
      ([req], .ret (softResponse (net req)))

/-- Python `s.lower()`, character by character (the three supported
checker-type tags are plain ASCII). -/
def pyLower (s : String) : String := ⟨s.data.map Char.toLower⟩

/-- Embedding of `push`: ensure the generation cache is set; type-check
the argument, its `subject` and its `checker_type`; reject an empty
subject; when the generation is not modern and `expiration_date` is
present and truthy, first submit WHOIS data; then always submit the
status payload under the lower-cased checker type and return that
submission's result. -/
def push (c : ClientState) (net : HttpRequest → HttpResult) (arg : PushArg) :
    CallResult (Option Json) :=
  let e := ensure_is_modern_api_is_set c net
  match arg with
  | .wrongType => ⟨e.1, e.2, .typeError⟩
  | .status cs =>
    match cs.subject with
    | .nonStr => ⟨e.1, e.2, .typeError⟩
    | .str subj =>
      match cs.checker_type with
      | .nonStr => ⟨e.1, e.2, .typeError⟩
      | .str ct =>
        if subj = "" then ⟨e.1, e.2, .valueError⟩
        else
          let whois_trace :=
            if !pyTruthy e.1.is_modern_api && cs.has_expiration_date
                && cs.expiration_date_truthy then
              (push_whois e.1 net (.statusObj cs.to_dict)).1
            else []
          let st := push_status e.1 net (pyLower ct) cs.to_json
          ⟨e.1, e.2 ++ whois_trace ++ st.1, st.2⟩

/-- Network oracle on which every request fails with a transport error. -/
def netExc : HttpRequest → HttpResult := fun _ => .exc

/-- Network oracle on which every request succeeds with HTTP 200 and an
empty JSON object body. -/
def netOk : HttpRequest → HttpResult := fun _ => .resp 200 (some (.obj []))

/-- Concrete client with an empty token (anonymous caller). -/
def exClient : ClientState :=
  { token := "", url_base := "https://api.example.test", timeout := 5/2,
    is_modern_api := none }

/-- Concrete client with a token and an unresolved generation cache. -/
def tokClient : ClientState :=
  { token := "tok", url_base := "https://api.example.test", timeout := 5/2,
    is_modern_api := none }

/-- Concrete client with a token and a resolved legacy generation. -/
def legClient : ClientState := { tokClient with is_modern_api := some false }

/-- Concrete client with a token and a resolved modern generation. -/
def modClient : ClientState := { tokClient with is_modern_api := some true }

/-- Concrete availability checker-status record with a truthy
expiration date. -/
def exStatus : CheckerStatus :=
  { subject := .str "example.com", checker_type := .str "AVAILABILITY",
    has_expiration_date := true, expiration_date_truthy := true,
    to_dict := .obj [], to_json := .raw "serialized" }

/-- Concrete checker-status record whose checker type is unsupported. -/
def badTypeStatus : CheckerStatus := { exStatus with checker_type := .str "bogus" }

/-! Helper lemmas about the generation probe and its cache. -/

/-- With an empty token the probe sets the cache to `False` (legacy) and
issues no request. -/
lemma guess_noToken (c : ClientState) (net : HttpRequest → HttpResult)
    (h : c.token = "") :
    guess_and_set_is_modern_api c net = ({ c with is_modern_api := some false }, []) := by
  unfold guess_and_set_is_modern_api
  simp [h]

/-- With a non-empty token the probe issues the GET and branches on the
oracle's answer. -/
lemma guess_token (c : ClientState) (net : HttpRequest → HttpResult)
    (h : c.token ≠ "") :
    guess_and_set_is_modern_api c net =
      (match net (probeRequest c) with
       | .exc => ({ c with is_modern_api := some true }, [probeRequest c])
       | .resp status _ =>
         if isHttpError status then ({ c with is_modern_api := some true }, [probeRequest c])
         else ({ c with is_modern_api := some false }, [probeRequest c])) := by
  unfold guess_and_set_is_modern_api
  rw [if_pos h]

/-- The probe always resolves the cache to a concrete Boolean. -/
lemma guess_sets (c : ClientState) (net : HttpRequest → HttpResult) :
    ∃ b, (guess_and_set_is_modern_api c net).1.is_modern_api = some b := by
  rcases eq_or_ne c.token "" with h | h
  · rw [guess_noToken c net h]
    exact ⟨false, rfl⟩
  · rw [guess_token c net h]
    cases net (probeRequest c) with
    | exc => exact ⟨true, rfl⟩
    | resp status body =>
      dsimp only
      split
      · exact ⟨true, rfl⟩
      · exact ⟨false, rfl⟩

/-- When the cache is unresolved, the decorator runs the probe. -/
lemma ensure_none (c : ClientState) (net : HttpRequest → HttpResult)
    (h : c.is_modern_api = none) :
    ensure_is_modern_api_is_set c net = guess_and_set_is_modern_api c net := by
  unfold ensure_is_modern_api_is_set
  rw [h]

/-- Once the cache holds a concrete value, the decorator is a no-op. -/
lemma ensure_some (c : ClientState) (net : HttpRequest → HttpResult) (b : Bool)
    (h : c.is_modern_api = some b) :
    ensure_is_modern_api_is_set c net = (c, []) := by
  unfold ensure_is_modern_api_is_set
  rw [h]

/-- C1 (counterexample): for the tokenless client `exClient`, the
generation resolves to `some false` (LEGACY, not MODERN), and `pull`
posts to the legacy subject-search path, which differs from the hub
aggregation path the claim names. -/
theorem claim_C1_counterexample :
    (guess_and_set_is_modern_api exClient netExc).1.is_modern_api = some false ∧
    (some false : Option Bool) ≠ some true ∧
    (pull exClient netExc (.str "test.tld")).trace.map (fun r => (r.method, r.url)) =
      [(Method.post, "https://api.example.test/v1/subject/search")] ∧
    ("https://api.example.test/v1/subject/search" : String) ≠
      "https://api.example.test/v1/hub/aggregation/subject/search" := by
  exact ⟨rfl, by decide, rfl, by decide⟩

/-- C1 (amended): for every client with an empty token and an unresolved
cache, the generation resolves immediately to LEGACY (`some false`)
without any network probe, and `pull(subject)` issues its single POST to
the legacy path `{urlBase}/v1/subject/search`. -/
theorem claim_C1_no_token_legacy (c : ClientState) (net : HttpRequest → HttpResult)
    (s : String) (htok : c.token = "") (hcache : c.is_modern_api = none) :
    (guess_and_set_is_modern_api c net).1.is_modern_api = some false ∧
    (guess_and_set_is_modern_api c net).2 = [] ∧
    (pull c net (.str s)).trace.map (fun r => (r.method, r.url)) =
      [(Method.post, c.url_base ++ "/v1/subject/search")] ∧
    (pull c net (.str s)).state.is_modern_api = some false := by
  rw [guess_noToken c net htok]
  refine ⟨rfl, rfl, ?_, ?_⟩ <;>
    simp [pull, ensure_none c net hcache, guess_noToken c net htok,
      searchRequest, pull_url, pyTruthy]

/-- C1 (witness for the amended theorem) at the concrete anonymous
client. -/
theorem claim_C1_no_token_legacy_witness :
    (pull exClient netExc (.str "test.tld")).trace.map (fun r => (r.method, r.url)) =
      [(Method.post, "https://api.example.test/v1/subject/search")] := by
  have h := claim_C1_no_token_legacy exClient netExc "test.tld" rfl rfl
  exact h.2.2.1.trans rfl

/-- C2: for every client with a non-empty token, the probe issues exactly
one GET to `{urlBase}/v1/stats/subject` with the configured timeout; a
completed response with a non-error status resolves the generation to
LEGACY (`some false`); a transport failure or an error status (4xx/5xx,
what `raise_for_status` rejects) resolves it to MODERN (`some true`). -/
theorem claim_C2_probe_with_token (c : ClientState) (net : HttpRequest → HttpResult)
    (h : c.token ≠ "") :
    (guess_and_set_is_modern_api c net).2 =
      [{ method := .get, url := c.url_base ++ "/v1/stats/subject", body := none,
         timeout := c.timeout }] ∧
    (∀ status body, net (probeRequest c) = .resp status body →
        isHttpError status = false →
        (guess_and_set_is_modern_api c net).1.is_modern_api = some false) ∧
    (net (probeRequest c) = .exc →
        (guess_and_set_is_modern_api c net).1.is_modern_api = some true) ∧
    (∀ status body, net (probeRequest c) = .resp status body →
        isHttpError status = true →
        (guess_and_set_is_modern_api c net).1.is_modern_api = some true) := by
  rw [guess_token c net h]
  refine ⟨?_, ?_, ?_, ?_⟩
  · cases hn : net (probeRequest c) with
    | exc => rfl
    | resp status body =>
      dsimp only
      split <;> rfl
  · intro status body hn hs
    rw [hn]
    simp [hs]
  · intro hn
    rw [hn]
  · intro status body hn hs
    rw [hn]
    simp [hs]

/-- C2 (witness): the concrete token-holding client against an oracle
answering HTTP 200 resolves to LEGACY, and against a failing transport
resolves to MODERN. -/
theorem claim_C2_probe_with_token_witness :
    (guess_and_set_is_modern_api tokClient netOk).1.is_modern_api = some false ∧
    (guess_and_set_is_modern_api tokClient netExc).1.is_modern_api = some true := by
  refine ⟨(claim_C2_probe_with_token tokClient netOk (by decide)).2.1 200
      (some (.obj [])) rfl (by decide), ?_⟩
  exact (claim_C2_probe_with_token tokClient netExc (by decide)).2.2.1 rfl

/-- C3: for every string subject, `pull` returns normally (no exception):
it returns the parsed body exactly when the response to its POST has
status 200 and a body that parses as JSON, and `None` in every other
case. -/
theorem claim_C3_pull_soft_failure (c : ClientState) (net : HttpRequest → HttpResult)
    (s : String) :
    (∃ x, (pull c net (.str s)).result = .ret x) ∧
    (∀ j, (pull c net (.str s)).result = .ret (some j) ↔
        net (searchRequest (ensure_is_modern_api_is_set c net).1 s) = .resp 200 (some j)) ∧
    ((∀ j, net (searchRequest (ensure_is_modern_api_is_set c net).1 s) ≠ .resp 200 (some j)) →
        (pull c net (.str s)).result = .ret none) := by
  refine ⟨⟨_, rfl⟩, ?_, ?_⟩
  · intro j
    show PyResult.ret (softResponse _) = _ ↔ _
    cases hn : net (searchRequest (ensure_is_modern_api_is_set c net).1 s) with
    | exc => simp [softResponse]
    | resp status body =>
      cases body with
      | none => simp [softResponse]
      | some j' =>
        rcases eq_or_ne status 200 with hs | hs <;>
          simp [softResponse, hs, eq_comm]
  · intro hne
    show PyResult.ret (softResponse _) = _
    cases hn : net (searchRequest (ensure_is_modern_api_is_set c net).1 s) with
    | exc => rfl
    | resp status body =>
      cases body with
      | none => rfl
      | some j' =>
        rcases eq_or_ne status 200 with hs | hs
        · exact absurd (hs ▸ hn) (hne j')
        · simp [softResponse, hs]

/-- C3 (witness): at the concrete anonymous client against a failing
transport, `pull` returns `None` without raising. -/
theorem claim_C3_pull_soft_failure_witness :
    (pull exClient netExc (.str "test.tld")).result = .ret none := by
  exact (claim_C3_pull_soft_failure exClient netExc "test.tld").2.2
    (fun j h => nomatch h)

/-- C9: `value in tool` and `tool[value]` are pure delegations to `pull`:
`__getitem__` returns exactly `pull(value)`, and `__contains__` reaches
the same state, issues the same requests, and returns `True` exactly when
`pull(value)` returns a present (non-`None`) result. -/
theorem claim_C9_dunder_delegation (c : ClientState) (net : HttpRequest → HttpResult)
    (v : String) :
    getitem c net (.str v) = pull c net (.str v) ∧
    (contains c net (.str v)).state = (pull c net (.str v)).state ∧
    (contains c net (.str v)).trace = (pull c net (.str v)).trace ∧
    ((contains c net (.str v)).result = .ret true ↔
        ∃ j, (pull c net (.str v)).result = .ret (some j)) := by
  refine ⟨rfl, ?_, ?_, ?_⟩ <;>
  · unfold contains
    rcases hp : pull c net (.str v) with ⟨c1, tr, res⟩
    cases res with
    | ret x => cases x <;> simp
    | typeError => simp
    | valueError => simp

/-- C4: for every client with an empty token and every status record with
a string, non-empty subject and a string checker type — supported or not —
`push` issues no network call and returns `None` (no value error is
raised for an unsupported checker type). -/
theorem claim_C4_push_no_token (c : ClientState) (net : HttpRequest → HttpResult)
    (cs : CheckerStatus) (s ct : String) (htok : c.token = "")
    (hsub : cs.subject = .str s) (hne : s ≠ "") (hct : cs.checker_type = .str ct) :
    (push c net (.status cs)).trace = [] ∧
    (push c net (.status cs)).result = .ret none := by
  have h1 : (ensure_is_modern_api_is_set c net).1.token = "" := by
    cases hm : c.is_modern_api with
    | none => rw [ensure_none c net hm, guess_noToken c net htok]; exact htok
    | some b => rw [ensure_some c net b hm]; exact htok
  have h2 : (ensure_is_modern_api_is_set c net).2 = ([] : List HttpRequest) := by
    cases hm : c.is_modern_api with
    | none => rw [ensure_none c net hm, guess_noToken c net htok]
    | some b => rw [ensure_some c net b hm]
  constructor <;> simp [push, hsub, hct, hne, h1, h2, push_whois, push_status]

/-- C4 (witness): the concrete anonymous client pushing a record with the
unsupported checker type `"bogus"` makes no call and returns `None`. -/
theorem claim_C4_push_no_token_witness :
    (push exClient netOk (.status badTypeStatus)).trace = [] ∧
    (push exClient netOk (.status badTypeStatus)).result = .ret none :=
  claim_C4_push_no_token exClient netOk badTypeStatus "example.com" "bogus"
    rfl rfl (by decide) rfl

/-- C5 (counterexample): the anonymous client resolves to LEGACY and
pushes the record with a truthy expiration date with zero outbound calls,
not the two the claim requires. -/
theorem claim_C5_counterexample :
    (push exClient netOk (.status exStatus)).state.is_modern_api = some false ∧
    exStatus.has_expiration_date = true ∧
    exStatus.expiration_date_truthy = true ∧
    (push exClient netOk (.status exStatus)).trace.length = 0 ∧
    (0 : Nat) ≠ 2 := by
  exact ⟨rfl, rfl, rfl, rfl, by decide⟩

/-- C5 (amended): for every client with a non-empty token and every valid
record with a supported checker type: under LEGACY generation with a
truthy expiration date, `push` issues exactly two POSTs, WHOIS
(`/v1/status/whois`) first and the status submission
(`/v1/status/{checkerType}`) second; under MODERN generation it issues
exactly one POST (the status submission to `/v1/contracts/self-delivery`),
regardless of the expiration date. -/
theorem claim_C5_token_call_counts (c : ClientState) (net : HttpRequest → HttpResult)
    (cs : CheckerStatus) (s ct : String) (htok : c.token ≠ "")
    (hsub : cs.subject = .str s) (hne : s ≠ "") (hct : cs.checker_type = .str ct)
    (hsupp : pyLower ct ∈ SUPPORTED_CHECKERS) :
    (c.is_modern_api = some false → cs.has_expiration_date = true →
        cs.expiration_date_truthy = true →
        (push c net (.status cs)).trace.map (fun r => (r.method, r.url)) =
          [(Method.post, c.url_base ++ "/v1/status/whois"),
           (Method.post, c.url_base ++ "/v1/status/" ++ pyLower ct)]) ∧
    (c.is_modern_api = some true →
        (push c net (.status cs)).trace.map (fun r => (r.method, r.url)) =
          [(Method.post, c.url_base ++ "/v1/contracts/self-delivery")]) := by
  constructor
  · intro hm hexp hexpt
    simp [push, hsub, hct, hne, ensure_some c net false hm, push_whois, push_status,
      htok, hsupp, pyTruthy, hexp, hexpt, hm]
  · intro hm
    simp [push, hsub, hct, hne, ensure_some c net true hm, push_whois, push_status,
      htok, hsupp, pyTruthy, hm]

/-- C5 (witness for the amended theorem): the legacy token-holding client
issues WHOIS then status; the modern one issues the single contracts
POST. -/
theorem claim_C5_token_call_counts_witness :
    (push legClient netOk (.status exStatus)).trace.map (fun r => (r.method, r.url)) =
      [(Method.post, "https://api.example.test/v1/status/whois"),
       (Method.post, "https://api.example.test/v1/status/availability")] ∧
    (push modClient netOk (.status exStatus)).trace.map (fun r => (r.method, r.url)) =
      [(Method.post, "https://api.example.test/v1/contracts/self-delivery")] := by
  have h1 := claim_C5_token_call_counts legClient netOk exStatus "example.com"
    "AVAILABILITY" (by decide) rfl (by decide) rfl (by decide)
  have h2 := claim_C5_token_call_counts modClient netOk exStatus "example.com"
    "AVAILABILITY" (by decide) rfl (by decide) rfl (by decide)
  exact ⟨(h1.1 rfl rfl rfl).trans rfl, (h2.2 rfl).trans rfl⟩

/-- Every request issued by `__push_whois` is a POST. -/
lemma push_whois_trace_post (c : ClientState) (net : HttpRequest → HttpResult)
    (d : PushData) : ∀ r ∈ (push_whois c net d).1, r.method = Method.post := by
  cases d with
  | raw s =>
    by_cases h : c.token = ""
    · simp [push_whois, h]
    · simp [push_whois, h]
  | statusObj j =>
    intro r hr
    by_cases h : c.token = ""
    · simp [push_whois, h] at hr
    · simp [push_whois, h] at hr
      rw [hr]
  | dict j =>
    intro r hr
    by_cases h : c.token = ""
    · simp [push_whois, h] at hr
    · simp [push_whois, h] at hr
      rw [hr]

/-- Every request issued by `__push_status` is a POST. -/
lemma push_status_trace_post (c : ClientState) (net : HttpRequest → HttpResult)
    (ct : String) (d : PushData) :
    ∀ r ∈ (push_status c net ct d).1, r.method = Method.post := by
  intro r hr
  by_cases h1 : c.token = ""
  · simp [push_status, h1] at hr
  · by_cases h2 : ct ∉ SUPPORTED_CHECKERS
    · simp [push_status, h1, h2] at hr
    · simp [push_status, h1, h2] at hr
      rw [hr]

/-- C7: the generation cache starts UNKNOWN (`None`) on construction; the
guard behind `pull`/`push` runs the probe exactly when the cache is still
UNKNOWN, after which it holds a concrete value; once the cache holds a
concrete value the guard is a no-op, and `pull`/`push` keep the cached
value and never issue the probe GET again (every request they issue is a
POST). -/
theorem claim_C7_generation_cache :
    (∀ t u tmo c, mkClient t u tmo = .ret c → c.is_modern_api = none) ∧
    (∀ c net, c.is_modern_api = none →
        ensure_is_modern_api_is_set c net = guess_and_set_is_modern_api c net ∧
        ∃ b, (guess_and_set_is_modern_api c net).1.is_modern_api = some b) ∧
    (∀ c net b, c.is_modern_api = some b →
        ensure_is_modern_api_is_set c net = (c, [])) ∧
    (∀ c net sub b, c.is_modern_api = some b →
        (pull c net sub).state.is_modern_api = some b ∧
        ∀ r ∈ (pull c net sub).trace, r.method = Method.post) ∧
    (∀ c net a b, c.is_modern_api = some b →
        (push c net a).state.is_modern_api = some b ∧
        ∀ r ∈ (push c net a).trace, r.method = Method.post) := by
  refine ⟨?_, ?_, ?_, ?_, ?_⟩
  · intro t u tmo c h
    unfold mkClient at h
    cases hu : url_base_setter (.str u) <;> rw [hu] at h
    · cases h
      rfl
    · simp at h
    · simp at h
  · intro c net h
    exact ⟨ensure_none c net h, guess_sets c net⟩
  · intro c net b h
    exact ensure_some c net b h
  · intro c net sub b h
    have he := ensure_some c net b h
    cases sub with
    | nonStr => exact ⟨by simp [pull, he, h], by simp [pull, he]⟩
    | str s =>
      refine ⟨by simp [pull, he, h], ?_⟩
      intro r hr
      simp [pull, he] at hr
      rw [hr]
      rfl
  · intro c net a b h
    have he := ensure_some c net b h
    cases a with
    | wrongType => exact ⟨by simp [push, he, h], by simp [push, he]⟩
    | status cs =>
      rcases hsub : cs.subject with s | _
      · rcases hct : cs.checker_type with ct | _
        · by_cases hs : s = ""
          · exact ⟨by simp [push, he, h, hsub, hct, hs], by simp [push, he, hsub, hct, hs]⟩
          · refine ⟨by simp [push, he, h, hsub, hct, hs], ?_⟩
            rcases hw : (!pyTruthy c.is_modern_api && cs.has_expiration_date
                && cs.expiration_date_truthy) with _ | _
            · intro r hr
              simp [push, he, hsub, hct, hs, hw] at hr
              exact push_status_trace_post c net (pyLower ct) cs.to_json r hr
            · intro r hr
              simp [push, he, hsub, hct, hs, hw] at hr
              rcases hr with hr | hr
              · exact push_whois_trace_post c net (.statusObj cs.to_dict) r hr
              · exact push_status_trace_post c net (pyLower ct) cs.to_json r hr
        · exact ⟨by simp [push, he, h, hsub, hct], by simp [push, he, hsub, hct]⟩
      · exact ⟨by simp [push, he, h, hsub], by simp [push, he, hsub]⟩

/-- C7 (witness): the concrete legacy client keeps its cached value: the
guard is a no-op and a `pull` issues only its POST while preserving the
cache. -/
theorem claim_C7_generation_cache_witness :
    ensure_is_modern_api_is_set legClient netOk = (legClient, []) ∧
    (pull legClient netOk (.str "a")).state.is_modern_api = some false ∧
    (mkClient "tok" "https://api.example.test" (5/2) = .ret tokClient →
      tokClient.is_modern_api = none) := by
  have h := claim_C7_generation_cache
  exact ⟨h.2.2.1 legClient netOk false rfl,
    (h.2.2.2.1 legClient netOk (.str "a") false rfl).1,
    h.1 "tok" "https://api.example.test" (5/2) tokClient⟩

/-- C8: for every client with an unresolved cache and a non-empty token,
calling `pull` with a non-string subject (or `push` with a wrong-typed
record) raises `TypeError`, yet the probe GET has already been issued and
the generation cache has been permanently set. -/
theorem claim_C8_probe_before_validation (c : ClientState)
    (net : HttpRequest → HttpResult) (hcache : c.is_modern_api = none)
    (htok : c.token ≠ "") :
    (pull c net .nonStr).result = .typeError ∧
    (pull c net .nonStr).trace = [probeRequest c] ∧
    (pull c net .nonStr).state.is_modern_api ≠ none ∧
    (push c net .wrongType).result = .typeError ∧
    (push c net .wrongType).trace = [probeRequest c] ∧
    (push c net .wrongType).state.is_modern_api ≠ none := by
  have he := (ensure_none c net hcache).trans (guess_token c net htok)
  cases hn : net (probeRequest c) with
  | exc =>
    rw [hn] at he
    refine ⟨?_, ?_, ?_, ?_, ?_, ?_⟩ <;> simp [pull, push, he]
  | resp status body =>
    rw [hn] at he
    dsimp only at he
    by_cases hs : isHttpError status
    · rw [if_pos hs] at he
      refine ⟨?_, ?_, ?_, ?_, ?_, ?_⟩ <;> simp [pull, push, he]
    · rw [if_neg hs] at he
      refine ⟨?_, ?_, ?_, ?_, ?_, ?_⟩ <;> simp [pull, push, he]

/-- C8 (witness): the concrete token-holding client, misused with a
non-string subject, still probes and caches the generation. -/
theorem claim_C8_probe_before_validation_witness :
    (pull tokClient netOk .nonStr).result = .typeError ∧
    (pull tokClient netOk .nonStr).trace = [probeRequest tokClient] ∧
    (push tokClient netOk .wrongType).result = .typeError := by
  have h := claim_C8_probe_before_validation tokClient netOk rfl (by decide)
  exact ⟨h.1, h.2.1, h.2.2.2.1⟩

/-! Helper lemmas about right-stripping and the startswith check. -/

/-- Dropping from the front while a predicate holds is idempotent. -/
lemma dropWhile_self_idem (p : Char → Bool) (l : List Char) :
    (l.dropWhile p).dropWhile p = l.dropWhile p := by
  cases hd : l.dropWhile p with
  | nil => rfl
  | cons a t =>
    have hp := List.head?_dropWhile_not p l
    rw [hd] at hp
    simp only [List.head?_cons] at hp
    rw [List.dropWhile_cons_of_neg]
    simp [hp]

/-- The stripped value is the input minus a run of trailing slashes. -/
lemma rstripSlash_decomp (s : String) :
    ∃ n, s.data = (rstripSlash s).data ++ List.replicate n '/' := by
  have hmem : ∀ b ∈ s.data.reverse.takeWhile (fun ch => decide (ch = '/')), b = '/' := by
    intro b hb
    simpa using List.mem_takeWhile_imp hb
  obtain ⟨n, hn⟩ :
      ∃ n, s.data.reverse.takeWhile (fun ch => decide (ch = '/')) = List.replicate n '/' :=
    ⟨_, List.eq_replicate_of_mem hmem⟩
  refine ⟨n, ?_⟩
  have key := List.takeWhile_append_dropWhile (p := fun ch => decide (ch = '/'))
    (l := s.data.reverse)
  calc s.data = s.data.reverse.reverse := (List.reverse_reverse _).symm
    _ = (s.data.reverse.takeWhile (fun ch => decide (ch = '/'))
          ++ s.data.reverse.dropWhile (fun ch => decide (ch = '/'))).reverse := by
        rw [key]
    _ = (s.data.reverse.dropWhile (fun ch => decide (ch = '/'))).reverse
          ++ (s.data.reverse.takeWhile (fun ch => decide (ch = '/'))).reverse := by
        rw [List.reverse_append]
    _ = (rstripSlash s).data ++ List.replicate n '/' := by
        rw [hn, List.reverse_replicate]
        rfl

/-- The stripped value does not end in a slash. -/
lemma rstripSlash_getLast (s : String) :
    ∀ a, (rstripSlash s).data.getLast? = some a → a ≠ '/' := by
  intro a h
  unfold rstripSlash at h
  rw [List.getLast?_reverse] at h
  have hp := List.head?_dropWhile_not (fun ch => decide (ch = '/')) s.data.reverse
  rw [h] at hp
  simpa using hp

/-- Stripping trailing slashes is idempotent: stripping once is final. -/
lemma rstripSlash_idem (s : String) : rstripSlash (rstripSlash s) = rstripSlash s := by
  unfold rstripSlash
  congr 1
  show ((s.data.reverse.dropWhile (fun ch => decide (ch = '/'))).reverse.reverse.dropWhile
      (fun ch => decide (ch = '/'))).reverse = _
  rw [List.reverse_reverse, dropWhile_self_idem]

/-- Matching a longer pattern at the front implies matching its first
part. -/
lemma leadsWith_append_left (p q l : List Char) (h : leadsWith (p ++ q) l = true) :
    leadsWith p l = true := by
  induction p generalizing l with
  | nil => rfl
  | cons a ps ih =>
    cases l with
    | nil => simp [leadsWith] at h
    | cons b t =>
      simp only [List.cons_append, leadsWith, Bool.and_eq_true] at h ⊢
      exact ⟨h.1, ih t h.2⟩

/-- Matching `"https"` at the front implies matching `"http"`. -/
lemma startswith_https_imp_http (s : String) (h : pyStartswith s "https" = true) :
    pyStartswith s "http" = true := by
  have : ("http".data ++ ['s'] : List Char) = "https".data := by decide
  exact leadsWith_append_left "http".data ['s'] s.data (by rw [this]; exact h)

/-- C6: the `url_base` setter raises `TypeError` on every non-string,
raises `ValueError` on every string lacking the `http`/`https` start, and
on every accepted string stores the input with its run of trailing `'/'`
characters stripped in one pass: the stored value is the input minus that
run, it no longer ends in `'/'`, and stripping again changes nothing. -/
theorem claim_C6_url_base_setter :
    (url_base_setter .nonStr = .typeError) ∧
    (∀ s : String, pyStartswith s "http" = false → pyStartswith s "https" = false →
        url_base_setter (.str s) = .valueError) ∧
    (∀ s : String, pyStartswith s "http" = true ∨ pyStartswith s "https" = true →
        url_base_setter (.str s) = .ret (rstripSlash s) ∧
        (∃ n, s.data = (rstripSlash s).data ++ List.replicate n '/') ∧
        (∀ a, (rstripSlash s).data.getLast? = some a → a ≠ '/') ∧
        rstripSlash (rstripSlash s) = rstripSlash s) := by
  refine ⟨rfl, ?_, ?_⟩
  · intro s h1 h2
    simp [url_base_setter, h1, h2]
  · intro s h
    have hacc : (pyStartswith s "http" || pyStartswith s "https") = true := by
      rcases h with h | h <;> simp [h]
    exact ⟨by simp [url_base_setter, hacc], rstripSlash_decomp s,
      rstripSlash_getLast s, rstripSlash_idem s⟩

/-- C6 (witness): a rejected scheme-less string, and an accepted URL with
three trailing slashes stripped to none. -/
theorem claim_C6_url_base_setter_witness :
    url_base_setter (.str "ftp://api.example.test") = .valueError ∧
    url_base_setter (.str "https://api.example.test///") =
      .ret "https://api.example.test" := by
  refine ⟨claim_C6_url_base_setter.2.1 "ftp://api.example.test" (by decide) (by decide), ?_⟩
  have h := (claim_C6_url_base_setter.2.2 "https://api.example.test///"
    (Or.inl (by decide))).1
  exact h.trans (congrArg PyResult.ret (by decide))

/-- C10: every string whose first four characters are `"http"` — scheme
validation is only this prefix test — is accepted by the `url_base`
setter, and the tuple test `startswith(("http", "https"))` is equivalent
to the single `"http"` test (the `"https"` alternative is subsumed). -/
theorem claim_C10_scheme_check (s : String) :
    (pyStartswith s "http" = true → url_base_setter (.str s) = .ret (rstripSlash s)) ∧
    (pyStartswith s "http" || pyStartswith s "https") = pyStartswith s "http" := by
  constructor
  · intro h
    simp [url_base_setter, h]
  · cases h1 : pyStartswith s "http"
    · cases h2 : pyStartswith s "https"
      · rfl
      · exact absurd (startswith_https_imp_http s h2) (by simp [h1])
    · rfl

/-- C10 (witness): the scheme-less-but-`http`-leading string
`"httpfoo.example"` is accepted unchanged. -/
theorem claim_C10_scheme_check_witness :
    url_base_setter (.str "httpfoo.example") = .ret "httpfoo.example" ∧
    (pyStartswith "httpfoo.example" "http" || pyStartswith "httpfoo.example" "https") =
      pyStartswith "httpfoo.example" "http" := by
  have h := claim_C10_scheme_check "httpfoo.example"
  exact ⟨(h.1 (by decide)).trans (congrArg PyResult.ret (by decide)), h.2⟩

end Collection
